import Mathlib

/-!
Verification of the solana-escrow-engine program
(src/programs/solana-escrow-engine/src/lib.rs) against its specification.

The five Anchor instructions (create_escrow, accept_escrow, confirm_delivery,
cancel_escrow, resolve_timeout) are shallowly embedded as pure functions
returning an Except value.  Machine integers are modelled as Nat (u64, u8)
and Int (i64).  The one arithmetic operation on caller-controlled data is
the i64 addition now + timeout_duration in create_escrow; it is embedded
with explicit two's-complement wraparound (wrapI64), and every theorem
about a successful creation carries hypotheses keeping that sum inside the
i64 range — where a build with overflow checks (which would abort the
instruction) and a wrapping build both agree with the exact sum.  A failing
instruction aborts the whole Solana transaction, so the runtime discards
every account mutation: the step functions below return the pre-state on
error, which encodes that rollback.
-/

namespace EscrowEngine

/-- A Solana public key (32 bytes), modelled as a natural number.  The
all-zero key Pubkey.default is the sentinel used by the program for an
unset seller. -/
structure Pubkey where
  val : Nat
deriving DecidableEq, Repr

def Pubkey.default : Pubkey := ⟨0⟩

/-- The EscrowState enum from lib.rs. -/
inductive EscrowState where
  | Created
  | Accepted
  | Completed
  | Cancelled
  | TimedOut
deriving DecidableEq, Repr

/-- The EscrowError enum (error_code) from lib.rs. -/
inductive EscrowError where
  | InvalidState
  | AlreadyAccepted
  | UnauthorizedBuyer
  | UnauthorizedSeller
  | TimeoutNotReached
deriving DecidableEq, Repr

/-- An instruction either fails with one of the program's own errors or
with an error propagated from the external token-transfer primitive. -/
inductive ProgError where
  | escrow (e : EscrowError)
  | insufficientFunds
deriving DecidableEq, Repr

/-- The Escrow account from lib.rs. -/
structure Escrow where
  buyer : Pubkey
  seller : Pubkey
  mint : Pubkey
  amount : Nat
  state : EscrowState
  created_at : Int
  accepted_at : Int
  completed_at : Int
  cancelled_at : Int
  timeout_at : Int
  description : String
  bump : Nat
deriving DecidableEq, Repr

/-- Modelled from the spec: the asset transfer primitive is an external
collaborator (spec sections 1 and 6); its code is not under src/.  Per the
spec it is an atomic balance move between two accounts of the same asset
that fails with InsufficientFunds when the source balance is below the
requested amount (spec section 7).  Returns the new (source, destination)
balances. -/
def token_transfer (fromBal toBal amount : Nat) : Except ProgError (Nat × Nat) :=
  if fromBal < amount then .error .insufficientFunds
  else .ok (fromBal - amount, toBal + amount)

/-- Two's-complement wraparound of an unbounded integer into the i64
range: the value a wrapping i64 addition stores. -/
def wrapI64 (x : Int) : Int := (x + 2 ^ 63) % 2 ^ 64 - 2 ^ 63

/-- create_escrow from lib.rs.  The buyer and mint keys, the bump and the
clock reading are supplied by the runtime context; the vault token account
is freshly initialized with balance 0.  Returns the new escrow record, the
vault balance and the buyer token-account balance.  Line 26 of lib.rs adds
two i64 values; the embedding stores the two's-complement wrap of the sum.
A build with overflow checks instead aborts the instruction at an
overflowing sum, so the theorems below assert a successful creation only
under hypotheses keeping now + timeout_duration in the i64 range, where
both behaviours coincide with the exact sum. -/
def create_escrow (buyerKey mintKey : Pubkey) (amount : Nat)
    (timeout_duration : Int) (description : String) (bump : Nat)
    (now : Int) (buyerBal : Nat) : Except ProgError (Escrow × Nat × Nat) :=
  match token_transfer buyerBal 0 amount with
  | .error e => .error e
  | .ok (buyerBal2, vaultBal2) =>
      .ok ({ buyer := buyerKey
             seller := Pubkey.default
             mint := mintKey
             amount := amount
             state := .Created
             created_at := now
             accepted_at := 0
             completed_at := 0
             cancelled_at := 0
             timeout_at := wrapI64 (now + timeout_duration)
             description := description
             bump := bump },
           vaultBal2, buyerBal2)

/-- accept_escrow from lib.rs: sellerKey is the signing caller. -/
def accept_escrow (sellerKey : Pubkey) (e : Escrow) (now : Int) :
    Except ProgError Escrow :=
  if e.state ≠ EscrowState.Created then .error (.escrow .InvalidState)
  else if e.seller ≠ Pubkey.default then .error (.escrow .AlreadyAccepted)
  else .ok { e with seller := sellerKey, state := .Accepted, accepted_at := now }

/-- confirm_delivery from lib.rs: buyerKey is the signing caller; vaultBal
and sellerBal are the vault and seller token-account balances.  Returns the
updated record and the new (vault, seller) balances. -/
def confirm_delivery (buyerKey : Pubkey) (e : Escrow)
    (vaultBal sellerBal : Nat) (now : Int) :
    Except ProgError (Escrow × Nat × Nat) :=
  if e.state ≠ EscrowState.Accepted then .error (.escrow .InvalidState)
  else if e.buyer ≠ buyerKey then .error (.escrow .UnauthorizedBuyer)
  else match token_transfer vaultBal sellerBal e.amount with
    | .error er => .error er
    | .ok (v2, s2) =>
        .ok ({ e with state := .Completed, completed_at := now }, v2, s2)

/-- cancel_escrow from lib.rs: buyerKey is the signing caller; returns the
updated record and the new (vault, buyer) balances. -/
def cancel_escrow (buyerKey : Pubkey) (e : Escrow)
    (vaultBal buyerBal : Nat) (now : Int) :
    Except ProgError (Escrow × Nat × Nat) :=
  if e.state ≠ EscrowState.Created then .error (.escrow .InvalidState)
  else if e.buyer ≠ buyerKey then .error (.escrow .UnauthorizedBuyer)
  else match token_transfer vaultBal buyerBal e.amount with
    | .error er => .error er
    | .ok (v2, b2) =>
        .ok ({ e with state := .Cancelled, cancelled_at := now }, v2, b2)

/-- resolve_timeout from lib.rs: the resolver signer is unchecked, so it is
not a parameter; returns the updated record and the new (vault, seller)
balances. -/
def resolve_timeout (e : Escrow) (vaultBal sellerBal : Nat) (now : Int) :
    Except ProgError (Escrow × Nat × Nat) :=
  if e.state ≠ EscrowState.Accepted then .error (.escrow .InvalidState)
  else if ¬ (now ≥ e.timeout_at) then .error (.escrow .TimeoutNotReached)
  else match token_transfer vaultBal sellerBal e.amount with
    | .error er => .error er
    | .ok (v2, s2) =>
        .ok ({ e with state := .TimedOut, completed_at := now }, v2, s2)

/-- The terminal states of the lifecycle. -/
def EscrowState.isTerminal : EscrowState → Bool
  | .Completed => true
  | .Cancelled => true
  | .TimedOut => true
  | _ => false

/-- The on-chain state surrounding one escrow: the record, the vault
balance, and the buyer and seller token-account balances for its mint. -/
structure World where
  escrow : Escrow
  vault : Nat
  buyerAcct : Nat
  sellerAcct : Nat
deriving DecidableEq, Repr

/-- A post-creation instruction together with its caller (where the program
checks one) and the clock reading at execution. -/
inductive Op where
  | accept (caller : Pubkey) (now : Int)
  | confirm (caller : Pubkey) (now : Int)
  | cancel (caller : Pubkey) (now : Int)
  | timeout (now : Int)
deriving DecidableEq, Repr

/-- Runs one instruction against a world.  A failed instruction aborts its
Solana transaction and the runtime rolls back all account writes, so on
error the world is returned unchanged together with the error. -/
def World.applyOp (w : World) (op : Op) : World × Option ProgError :=
  match op with
  | .accept c now =>
      match accept_escrow c w.escrow now with
      | .ok e2 => ({ w with escrow := e2 }, none)
      | .error er => (w, some er)
  | .confirm c now =>
      match confirm_delivery c w.escrow w.vault w.sellerAcct now with
      | .ok (e2, v2, s2) =>
          ({ w with escrow := e2, vault := v2, sellerAcct := s2 }, none)
      | .error er => (w, some er)
  | .cancel c now =>
      match cancel_escrow c w.escrow w.vault w.buyerAcct now with
      | .ok (e2, v2, b2) =>
          ({ w with escrow := e2, vault := v2, buyerAcct := b2 }, none)
      | .error er => (w, some er)
  | .timeout now =>
      match resolve_timeout w.escrow w.vault w.sellerAcct now with
      | .ok (e2, v2, s2) =>
          ({ w with escrow := e2, vault := v2, sellerAcct := s2 }, none)
      | .error er => (w, some er)

/-- The world after an instruction, discarding the error report. -/
def World.step (w : World) (op : Op) : World := (w.applyOp op).1

/-- The world after a sequence of instructions. -/
def World.run (w : World) (ops : List Op) : World := ops.foldl World.step w

/-- The world produced by a successful create_escrow: the new record, the
funded vault, the debited buyer account, and a given seller token-account
balance; none when creation fails. -/
def initWorld (buyerKey mintKey : Pubkey) (amount : Nat)
    (timeout_duration : Int) (description : String) (bump : Nat)
    (now : Int) (buyerBal sellerBal : Nat) : Option World :=
  match create_escrow buyerKey mintKey amount timeout_duration description
      bump now buyerBal with
  | .ok (e, v, b) => some ⟨e, v, b, sellerBal⟩
  | .error _ => none

/-- The observable outcome of create_escrow under transaction rollback:
on failure no record exists and the buyer balance is untouched. -/
def runCreate (buyerKey mintKey : Pubkey) (amount : Nat)
    (timeout_duration : Int) (description : String) (bump : Nat)
    (now : Int) (buyerBal : Nat) : Option (Escrow × Nat) × Nat :=
  match create_escrow buyerKey mintKey amount timeout_duration description
      bump now buyerBal with
  | .ok (e, v, b) => (some (e, v), b)
  | .error _ => (none, buyerBal)

/-- Replacing an escrow record's description, leaving every other field
alone. -/
def setDesc (e : Escrow) (d : String) : Escrow := { e with description := d }

/-- C1 counterexample: create_escrow called with timeout_duration = 0 (not
strictly positive) does not fail with InvalidState; it succeeds and the
created record has timeout_at = created_at = 1000, so timeout_at is not
greater than created_at. -/
theorem create_timeout_counterexample :
    create_escrow ⟨1⟩ ⟨2⟩ 100 0 "gadget" 255 1000 500 =
      Except.ok ({ buyer := ⟨1⟩, seller := Pubkey.default, mint := ⟨2⟩,
                   amount := 100, state := .Created, created_at := 1000,
                   accepted_at := 0, completed_at := 0, cancelled_at := 0,
                   timeout_at := 1000, description := "gadget", bump := 255 },
                 100, 400) := rfl

/-- On an integer already inside the i64 range the two's-complement wrap
is the identity. -/
theorem wrapI64_eq {x : Int} (h1 : -(2 ^ 63) ≤ x) (h2 : x ≤ 2 ^ 63 - 1) :
    wrapI64 x = x := by
  unfold wrapI64
  omega

/-- C1 (amended): create_escrow performs no validation of
timeout_duration: whenever the i64 sum now + timeout_duration does not
overflow — in particular at timeout_duration = 0 — it never fails with
InvalidState, on success it sets created_at = now and
timeout_at = now + timeout_duration, so the created record satisfies
timeout_at > created_at iff timeout_duration > 0, and it succeeds whenever
the buyer balance covers the deposit. -/
theorem create_no_timeout_validation (bk mk : Pubkey) (amount : Nat)
    (td : Int) (d : String) (bump : Nat) (now : Int) (bal : Nat)
    (hlo : -(2 ^ 63) ≤ now + td) (hhi : now + td ≤ 2 ^ 63 - 1) :
    create_escrow bk mk amount td d bump now bal ≠
        Except.error (ProgError.escrow EscrowError.InvalidState) ∧
    (∀ r, create_escrow bk mk amount td d bump now bal = Except.ok r →
        r.1.created_at = now ∧ r.1.timeout_at = now + td ∧
        (r.1.created_at < r.1.timeout_at ↔ 0 < td)) ∧
    (amount ≤ bal →
        create_escrow bk mk amount td d bump now bal =
          Except.ok ({ buyer := bk, seller := Pubkey.default, mint := mk,
                       amount := amount, state := .Created, created_at := now,
                       accepted_at := 0, completed_at := 0, cancelled_at := 0,
                       timeout_at := now + td, description := d, bump := bump },
                     amount, bal - amount)) := by
  unfold create_escrow token_transfer
  rw [wrapI64_eq hlo hhi]
  by_cases h : bal < amount
  · simp only [if_pos h]
    refine ⟨by simp, by simp, fun hle => absurd h (not_lt.mpr hle)⟩
  · simp only [if_neg h]
    refine ⟨by simp, ?_, fun _ => by simp⟩
    intro r hr
    injection hr with hr
    subst hr
    exact ⟨rfl, rfl, by show now < now + td ↔ 0 < td; omega⟩

/-- C1 witness: the amended theorem applied at a concrete call with
timeout_duration = 0, an in-range sum and sufficient balance. -/
theorem create_no_timeout_validation_witness :
    -(2 ^ 63) ≤ (1000 : Int) + 0 ∧ (1000 : Int) + 0 ≤ 2 ^ 63 - 1 ∧
    (100 : Nat) ≤ 500 ∧
    create_escrow ⟨1⟩ ⟨2⟩ 100 0 "gadget" 255 1000 500 =
      Except.ok ({ buyer := ⟨1⟩, seller := Pubkey.default, mint := ⟨2⟩,
                   amount := 100, state := .Created, created_at := 1000,
                   accepted_at := 0, completed_at := 0, cancelled_at := 0,
                   timeout_at := 1000 + 0, description := "gadget", bump := 255 },
                 100, 500 - 100) :=
  ⟨by decide, by decide, by decide,
   (create_no_timeout_validation ⟨1⟩ ⟨2⟩ 100 0 "gadget" 255 1000 500
     (by decide) (by decide)).2.2 (by decide)⟩

/-- C2 counterexample: create_escrow called with amount = 0 does not fail;
it succeeds and produces a record in state Created with amount = 0, an
empty vault, and the buyer balance untouched. -/
theorem create_zero_amount_counterexample :
    create_escrow ⟨1⟩ ⟨2⟩ 0 3600 "widget" 255 1000 500 =
      Except.ok ({ buyer := ⟨1⟩, seller := Pubkey.default, mint := ⟨2⟩,
                   amount := 0, state := .Created, created_at := 1000,
                   accepted_at := 0, completed_at := 0, cancelled_at := 0,
                   timeout_at := 4600, description := "widget", bump := 255 },
                 0, 500) := rfl

/-- C2 (amended): create_escrow performs no positivity check on amount: a
call with amount = 0 whose i64 sum now + timeout_duration does not
overflow succeeds (the zero-amount deposit transfer succeeds for every
buyer balance) and produces an escrow record in state Created with
amount = 0 and an empty vault. -/
theorem create_zero_amount_succeeds (bk mk : Pubkey) (td : Int) (d : String)
    (bump : Nat) (now : Int) (bal : Nat)
    (hlo : -(2 ^ 63) ≤ now + td) (hhi : now + td ≤ 2 ^ 63 - 1) :
    create_escrow bk mk 0 td d bump now bal =
      Except.ok ({ buyer := bk, seller := Pubkey.default, mint := mk,
                   amount := 0, state := .Created, created_at := now,
                   accepted_at := 0, completed_at := 0, cancelled_at := 0,
                   timeout_at := now + td, description := d, bump := bump },
                 0, bal) := by
  simp [create_escrow, token_transfer, wrapI64_eq hlo hhi]

/-- C2 witness: the amended theorem applied at a concrete zero-amount
create with an in-range timeout sum. -/
theorem create_zero_amount_succeeds_witness :
    -(2 ^ 63) ≤ (1000 : Int) + 3600 ∧ (1000 : Int) + 3600 ≤ 2 ^ 63 - 1 ∧
    create_escrow ⟨1⟩ ⟨2⟩ 0 3600 "widget" 255 1000 500 =
      Except.ok ({ buyer := ⟨1⟩, seller := Pubkey.default, mint := ⟨2⟩,
                   amount := 0, state := .Created, created_at := 1000,
                   accepted_at := 0, completed_at := 0, cancelled_at := 0,
                   timeout_at := 1000 + 3600, description := "widget",
                   bump := 255 },
                 0, 500) :=
  ⟨by decide, by decide,
   create_zero_amount_succeeds ⟨1⟩ ⟨2⟩ 3600 "widget" 255 1000 500
     (by decide) (by decide)⟩

/-- C10: accept_escrow checks nothing about the caller identity: for every
escrow in state Created with seller still the sentinel, it succeeds for
any signing caller, records that caller as seller, moves the state to
Accepted and stamps accepted_at. -/
theorem accept_any_caller (c : Pubkey) (e : Escrow) (now : Int)
    (h1 : e.state = EscrowState.Created) (h2 : e.seller = Pubkey.default) :
    accept_escrow c e now =
      Except.ok { e with seller := c, state := .Accepted, accepted_at := now } := by
  simp [accept_escrow, h1, h2]

/-- C10 witness: the theorem applied at a concrete escrow in state Created,
with the caller taken to be the escrow's own buyer. -/
theorem accept_any_caller_witness :
    ({ buyer := ⟨1⟩, seller := Pubkey.default, mint := ⟨2⟩, amount := 100,
       state := .Created, created_at := 1000, accepted_at := 0,
       completed_at := 0, cancelled_at := 0, timeout_at := 4600,
       description := "widget", bump := 255 } : Escrow).state =
        EscrowState.Created ∧
    accept_escrow ⟨1⟩
        { buyer := ⟨1⟩, seller := Pubkey.default, mint := ⟨2⟩, amount := 100,
          state := .Created, created_at := 1000, accepted_at := 0,
          completed_at := 0, cancelled_at := 0, timeout_at := 4600,
          description := "widget", bump := 255 } 1010 =
      Except.ok { buyer := ⟨1⟩, seller := ⟨1⟩, mint := ⟨2⟩, amount := 100,
                  state := .Accepted, created_at := 1000, accepted_at := 1010,
                  completed_at := 0, cancelled_at := 0, timeout_at := 4600,
                  description := "widget", bump := 255 } :=
  ⟨rfl,
   accept_any_caller ⟨1⟩
     { buyer := ⟨1⟩, seller := Pubkey.default, mint := ⟨2⟩, amount := 100,
       state := .Created, created_at := 1000, accepted_at := 0,
       completed_at := 0, cancelled_at := 0, timeout_at := 4600,
       description := "widget", bump := 255 } 1010 rfl rfl⟩

/-- C3: resolve_timeout fails with InvalidState whenever the state is not
Accepted; fails with TimeoutNotReached when the state is Accepted and
now < timeout_at; and when the state is Accepted and now ≥ timeout_at
(the boundary now = timeout_at included) with the vault holding the
escrowed amount, it succeeds, empties the vault into the seller account,
sets the state to TimedOut and stamps completed_at = now. -/
theorem resolve_timeout_spec (e : Escrow) (v s : Nat) (now : Int) :
    (e.state ≠ EscrowState.Accepted →
        resolve_timeout e v s now =
          Except.error (ProgError.escrow EscrowError.InvalidState)) ∧
    (e.state = EscrowState.Accepted → now < e.timeout_at →
        resolve_timeout e v s now =
          Except.error (ProgError.escrow EscrowError.TimeoutNotReached)) ∧
    (e.state = EscrowState.Accepted → e.timeout_at ≤ now → v = e.amount →
        resolve_timeout e v s now =
          Except.ok ({ e with state := .TimedOut, completed_at := now },
                     0, s + e.amount)) := by
  refine ⟨fun h => by simp [resolve_timeout, h], fun h1 h2 => ?_, fun h1 h2 h3 => ?_⟩
  · simp only [resolve_timeout, h1]
    rw [if_neg (by simp), if_pos (by omega)]
  · simp only [resolve_timeout, h1, h3]
    rw [if_neg (by simp), if_neg (by omega)]
    simp [token_transfer]

/-- C3 witness: the boundary case of Scenario E at a concrete accepted
escrow: called at now = timeout_at - 1 the theorem gives TimeoutNotReached,
and called exactly at now = timeout_at it gives success with the vault
emptied into the seller account and state TimedOut. -/
theorem resolve_timeout_spec_witness :
    ({ buyer := ⟨1⟩, seller := ⟨2⟩, mint := ⟨3⟩, amount := 100,
       state := .Accepted, created_at := 1000, accepted_at := 1010,
       completed_at := 0, cancelled_at := 0, timeout_at := 4600,
       description := "widget", bump := 255 } : Escrow).state =
        EscrowState.Accepted ∧
    resolve_timeout
        { buyer := ⟨1⟩, seller := ⟨2⟩, mint := ⟨3⟩, amount := 100,
          state := .Accepted, created_at := 1000, accepted_at := 1010,
          completed_at := 0, cancelled_at := 0, timeout_at := 4600,
          description := "widget", bump := 255 } 100 0 4599 =
      Except.error (ProgError.escrow EscrowError.TimeoutNotReached) ∧
    resolve_timeout
        { buyer := ⟨1⟩, seller := ⟨2⟩, mint := ⟨3⟩, amount := 100,
          state := .Accepted, created_at := 1000, accepted_at := 1010,
          completed_at := 0, cancelled_at := 0, timeout_at := 4600,
          description := "widget", bump := 255 } 100 0 4600 =
      Except.ok ({ buyer := ⟨1⟩, seller := ⟨2⟩, mint := ⟨3⟩, amount := 100,
                   state := .TimedOut, created_at := 1000, accepted_at := 1010,
                   completed_at := 4600, cancelled_at := 0, timeout_at := 4600,
                   description := "widget", bump := 255 }, 0, 0 + 100) :=
  ⟨rfl,
   (resolve_timeout_spec
       { buyer := ⟨1⟩, seller := ⟨2⟩, mint := ⟨3⟩, amount := 100,
         state := .Accepted, created_at := 1000, accepted_at := 1010,
         completed_at := 0, cancelled_at := 0, timeout_at := 4600,
         description := "widget", bump := 255 } 100 0 4599).2.1 rfl (by decide),
   (resolve_timeout_spec
       { buyer := ⟨1⟩, seller := ⟨2⟩, mint := ⟨3⟩, amount := 100,
         state := .Accepted, created_at := 1000, accepted_at := 1010,
         completed_at := 0, cancelled_at := 0, timeout_at := 4600,
         description := "widget", bump := 255 } 100 0 4600).2.2 rfl (by decide)
     rfl⟩

/-- C4: confirm_delivery succeeds only when the state is Accepted and the
caller is the recorded buyer, and then moves exactly the escrowed amount
from the vault to the seller account, sets the state to Completed and
stamps completed_at = now; it fails with InvalidState when the state is
not Accepted, and with UnauthorizedBuyer when the state is Accepted but
the caller is not the buyer. -/
theorem confirm_delivery_spec (c : Pubkey) (e : Escrow) (v s : Nat)
    (now : Int) :
    (∀ r, confirm_delivery c e v s now = Except.ok r →
        e.state = EscrowState.Accepted ∧ c = e.buyer ∧ e.amount ≤ v ∧
        r = ({ e with state := .Completed, completed_at := now },
             v - e.amount, s + e.amount)) ∧
    (e.state ≠ EscrowState.Accepted →
        confirm_delivery c e v s now =
          Except.error (ProgError.escrow EscrowError.InvalidState)) ∧
    (e.state = EscrowState.Accepted → c ≠ e.buyer →
        confirm_delivery c e v s now =
          Except.error (ProgError.escrow EscrowError.UnauthorizedBuyer)) ∧
    (e.state = EscrowState.Accepted → c = e.buyer → v = e.amount →
        confirm_delivery c e v s now =
          Except.ok ({ e with state := .Completed, completed_at := now },
                     0, s + e.amount)) := by
  refine ⟨?_, fun h => by simp [confirm_delivery, h], fun h1 h2 => ?_,
    fun h1 h2 h3 => ?_⟩
  · intro r hr
    by_cases h1 : e.state = EscrowState.Accepted
    · by_cases h2 : e.buyer = c
      · by_cases h3 : v < e.amount
        · simp [confirm_delivery, token_transfer, h1, h2, h3] at hr
        · simp only [confirm_delivery, token_transfer, h1, h2, h3,
            ne_eq, not_true_eq_false, if_false, not_false_eq_true,
            if_true, if_neg h3, Except.ok.injEq] at hr
          exact ⟨h1, h2.symm, not_lt.mp h3, by rw [h2]; exact hr.symm⟩
      · simp [confirm_delivery, h1, h2] at hr
    · simp [confirm_delivery, h1] at hr
  · simp only [confirm_delivery, h1]
    rw [if_neg (by simp), if_pos (by simp [Ne.symm h2])]
  · simp only [confirm_delivery, h1, h2, h3]
    rw [if_neg (by simp), if_neg (by simp)]
    simp [token_transfer]

/-- C4 witness: the theorem applied at a concrete accepted escrow with the
buyer calling and the vault holding the escrowed amount (Scenario C), and
at a non-buyer caller for the UnauthorizedBuyer branch. -/
theorem confirm_delivery_spec_witness :
    ({ buyer := ⟨1⟩, seller := ⟨2⟩, mint := ⟨3⟩, amount := 100,
       state := .Accepted, created_at := 1000, accepted_at := 1010,
       completed_at := 0, cancelled_at := 0, timeout_at := 4600,
       description := "widget", bump := 255 } : Escrow).state =
        EscrowState.Accepted ∧
    confirm_delivery ⟨1⟩
        { buyer := ⟨1⟩, seller := ⟨2⟩, mint := ⟨3⟩, amount := 100,
          state := .Accepted, created_at := 1000, accepted_at := 1010,
          completed_at := 0, cancelled_at := 0, timeout_at := 4600,
          description := "widget", bump := 255 } 100 0 2000 =
      Except.ok ({ buyer := ⟨1⟩, seller := ⟨2⟩, mint := ⟨3⟩, amount := 100,
                   state := .Completed, created_at := 1000, accepted_at := 1010,
                   completed_at := 2000, cancelled_at := 0, timeout_at := 4600,
                   description := "widget", bump := 255 }, 0, 0 + 100) ∧
    confirm_delivery ⟨9⟩
        { buyer := ⟨1⟩, seller := ⟨2⟩, mint := ⟨3⟩, amount := 100,
          state := .Accepted, created_at := 1000, accepted_at := 1010,
          completed_at := 0, cancelled_at := 0, timeout_at := 4600,
          description := "widget", bump := 255 } 100 0 2000 =
      Except.error (ProgError.escrow EscrowError.UnauthorizedBuyer) :=
  ⟨rfl,
   (confirm_delivery_spec ⟨1⟩
       { buyer := ⟨1⟩, seller := ⟨2⟩, mint := ⟨3⟩, amount := 100,
         state := .Accepted, created_at := 1000, accepted_at := 1010,
         completed_at := 0, cancelled_at := 0, timeout_at := 4600,
         description := "widget", bump := 255 } 100 0 2000).2.2.2 rfl rfl rfl,
   (confirm_delivery_spec ⟨9⟩
       { buyer := ⟨1⟩, seller := ⟨2⟩, mint := ⟨3⟩, amount := 100,
         state := .Accepted, created_at := 1000, accepted_at := 1010,
         completed_at := 0, cancelled_at := 0, timeout_at := 4600,
         description := "widget", bump := 255 } 100 0 2000).2.2.1 rfl
     (by decide)⟩

/-- C5: cancel_escrow succeeds only when the state is Created and the
caller is the recorded buyer, and then returns exactly the escrowed amount
from the vault to the buyer account, sets the state to Cancelled and
stamps cancelled_at = now; it fails with InvalidState when the state is
not Created — in particular a cancel attempted after Accept fails with
InvalidState and, the transaction rolling back, leaves the whole world
(vault balance included) unchanged — and with UnauthorizedBuyer when the
state is Created but the caller is not the buyer. -/
theorem cancel_escrow_spec (c : Pubkey) (e : Escrow) (v b : Nat)
    (now : Int) :
    (∀ r, cancel_escrow c e v b now = Except.ok r →
        e.state = EscrowState.Created ∧ c = e.buyer ∧ e.amount ≤ v ∧
        r = ({ e with state := .Cancelled, cancelled_at := now },
             v - e.amount, b + e.amount)) ∧
    (e.state ≠ EscrowState.Created →
        cancel_escrow c e v b now =
          Except.error (ProgError.escrow EscrowError.InvalidState)) ∧
    (e.state = EscrowState.Created → c ≠ e.buyer →
        cancel_escrow c e v b now =
          Except.error (ProgError.escrow EscrowError.UnauthorizedBuyer)) ∧
    (e.state = EscrowState.Created → c = e.buyer → v = e.amount →
        cancel_escrow c e v b now =
          Except.ok ({ e with state := .Cancelled, cancelled_at := now },
                     0, b + e.amount)) ∧
    (∀ w : World, w.escrow.state = EscrowState.Accepted →
        w.applyOp (Op.cancel c now) =
          (w, some (ProgError.escrow EscrowError.InvalidState))) := by
  refine ⟨?_, fun h => by simp [cancel_escrow, h], fun h1 h2 => ?_,
    fun h1 h2 h3 => ?_, fun w hw => ?_⟩
  · intro r hr
    by_cases h1 : e.state = EscrowState.Created
    · by_cases h2 : e.buyer = c
      · by_cases h3 : v < e.amount
        · simp [cancel_escrow, token_transfer, h1, h2, h3] at hr
        · simp only [cancel_escrow, token_transfer, h1, h2, h3,
            ne_eq, not_true_eq_false, if_false, not_false_eq_true,
            if_true, if_neg h3, Except.ok.injEq] at hr
          exact ⟨h1, h2.symm, not_lt.mp h3, by rw [h2]; exact hr.symm⟩
      · simp [cancel_escrow, h1, h2] at hr
    · simp [cancel_escrow, h1] at hr
  · simp only [cancel_escrow, h1]
    rw [if_neg (by simp), if_pos (by simp [Ne.symm h2])]
  · simp only [cancel_escrow, h1, h2, h3]
    rw [if_neg (by simp), if_neg (by simp)]
    simp [token_transfer]
  · simp [World.applyOp, cancel_escrow, hw]

/-- C5 witness: the theorem applied at a concrete escrow: the success
branch for the buyer cancelling in state Created, and the Scenario D
branch where a cancel after Accept fails with InvalidState and leaves the
world, its vault balance of 100 included, unchanged. -/
theorem cancel_escrow_spec_witness :
    cancel_escrow ⟨1⟩
        { buyer := ⟨1⟩, seller := Pubkey.default, mint := ⟨3⟩, amount := 100,
          state := .Created, created_at := 1000, accepted_at := 0,
          completed_at := 0, cancelled_at := 0, timeout_at := 4600,
          description := "widget", bump := 255 } 100 400 1500 =
      Except.ok ({ buyer := ⟨1⟩, seller := Pubkey.default, mint := ⟨3⟩,
                   amount := 100, state := .Cancelled, created_at := 1000,
                   accepted_at := 0, completed_at := 0, cancelled_at := 1500,
                   timeout_at := 4600, description := "widget", bump := 255 },
                 0, 400 + 100) ∧
    World.applyOp
        ⟨{ buyer := ⟨1⟩, seller := ⟨2⟩, mint := ⟨3⟩, amount := 100,
           state := .Accepted, created_at := 1000, accepted_at := 1010,
           completed_at := 0, cancelled_at := 0, timeout_at := 4600,
           description := "widget", bump := 255 }, 100, 400, 0⟩
        (Op.cancel ⟨1⟩ 1500) =
      (⟨{ buyer := ⟨1⟩, seller := ⟨2⟩, mint := ⟨3⟩, amount := 100,
          state := .Accepted, created_at := 1000, accepted_at := 1010,
          completed_at := 0, cancelled_at := 0, timeout_at := 4600,
          description := "widget", bump := 255 }, 100, 400, 0⟩,
       some (ProgError.escrow EscrowError.InvalidState)) :=
  ⟨(cancel_escrow_spec ⟨1⟩
       { buyer := ⟨1⟩, seller := Pubkey.default, mint := ⟨3⟩, amount := 100,
         state := .Created, created_at := 1000, accepted_at := 0,
         completed_at := 0, cancelled_at := 0, timeout_at := 4600,
         description := "widget", bump := 255 } 100 400 1500).2.2.2.1 rfl rfl
     rfl,
   (cancel_escrow_spec ⟨1⟩
       { buyer := ⟨1⟩, seller := ⟨2⟩, mint := ⟨3⟩, amount := 100,
         state := .Accepted, created_at := 1000, accepted_at := 1010,
         completed_at := 0, cancelled_at := 0, timeout_at := 4600,
         description := "widget", bump := 255 } 100 400 1500).2.2.2.2
     ⟨{ buyer := ⟨1⟩, seller := ⟨2⟩, mint := ⟨3⟩, amount := 100,
        state := .Accepted, created_at := 1000, accepted_at := 1010,
        completed_at := 0, cancelled_at := 0, timeout_at := 4600,
        description := "widget", bump := 255 }, 100, 400, 0⟩ rfl⟩

/-- C6: once an escrow is in a terminal state (Completed, Cancelled or
TimedOut), every mutating instruction (accept, confirm, cancel, timeout)
fails with InvalidState and, the transaction rolling back, leaves the
record, the vault balance and every other account unchanged. -/
theorem terminal_states_frozen (w : World) (op : Op)
    (h : w.escrow.state.isTerminal = true) :
    w.applyOp op = (w, some (ProgError.escrow EscrowError.InvalidState)) := by
  have h12 : w.escrow.state ≠ EscrowState.Created ∧
      w.escrow.state ≠ EscrowState.Accepted := by
    cases hs : w.escrow.state <;> simp_all [EscrowState.isTerminal]
  cases op <;>
    simp [World.applyOp, accept_escrow, confirm_delivery, cancel_escrow,
      resolve_timeout, h12.1, h12.2]

/-- C6 witness: the theorem applied at a concrete Completed escrow, for a
cancel attempt. -/
theorem terminal_states_frozen_witness :
    ({ buyer := ⟨1⟩, seller := ⟨2⟩, mint := ⟨3⟩, amount := 100,
       state := .Completed, created_at := 1000, accepted_at := 1010,
       completed_at := 2000, cancelled_at := 0, timeout_at := 4600,
       description := "widget", bump := 255 } : Escrow).state.isTerminal =
        true ∧
    World.applyOp
        ⟨{ buyer := ⟨1⟩, seller := ⟨2⟩, mint := ⟨3⟩, amount := 100,
           state := .Completed, created_at := 1000, accepted_at := 1010,
           completed_at := 2000, cancelled_at := 0, timeout_at := 4600,
           description := "widget", bump := 255 }, 0, 400, 100⟩
        (Op.cancel ⟨1⟩ 3000) =
      (⟨{ buyer := ⟨1⟩, seller := ⟨2⟩, mint := ⟨3⟩, amount := 100,
          state := .Completed, created_at := 1000, accepted_at := 1010,
          completed_at := 2000, cancelled_at := 0, timeout_at := 4600,
          description := "widget", bump := 255 }, 0, 400, 100⟩,
       some (ProgError.escrow EscrowError.InvalidState)) :=
  ⟨rfl,
   terminal_states_frozen
     ⟨{ buyer := ⟨1⟩, seller := ⟨2⟩, mint := ⟨3⟩, amount := 100,
        state := .Completed, created_at := 1000, accepted_at := 1010,
        completed_at := 2000, cancelled_at := 0, timeout_at := 4600,
        description := "widget", bump := 255 }, 0, 400, 100⟩
     (Op.cancel ⟨1⟩ 3000) rfl⟩

/-- C7: no operation has a partial effect on error.  For the four
post-creation instructions, whenever running one reports an error the
world — the escrow record and all three balances — is exactly the
pre-call world; for create_escrow, an error means no record and no vault
exist and the buyer balance is untouched. -/
theorem errors_have_no_partial_effect :
    (∀ (w : World) (op : Op) (er : ProgError),
        (w.applyOp op).2 = some er → (w.applyOp op).1 = w) ∧
    (∀ (bk mk : Pubkey) (amount : Nat) (td : Int) (d : String) (bump : Nat)
        (now : Int) (bal : Nat) (er : ProgError),
        create_escrow bk mk amount td d bump now bal = Except.error er →
        runCreate bk mk amount td d bump now bal = (none, bal)) := by
  constructor
  · intro w op er h
    cases op with
    | accept c now =>
        simp only [World.applyOp] at h ⊢
        cases hf : accept_escrow c w.escrow now <;> simp [hf] at h ⊢
    | confirm c now =>
        simp only [World.applyOp] at h ⊢
        cases hf : confirm_delivery c w.escrow w.vault w.sellerAcct now <;>
          simp [hf] at h ⊢
    | cancel c now =>
        simp only [World.applyOp] at h ⊢
        cases hf : cancel_escrow c w.escrow w.vault w.buyerAcct now <;>
          simp [hf] at h ⊢
    | timeout now =>
        simp only [World.applyOp] at h ⊢
        cases hf : resolve_timeout w.escrow w.vault w.sellerAcct now <;>
          simp [hf] at h ⊢
  · intro bk mk amount td d bump now bal er h
    simp [runCreate, h]

/-- C7 witness: the theorem applied at a concrete failing cancel (escrow
already Completed) and at a concrete failing create (deposit larger than
the buyer balance). -/
theorem errors_have_no_partial_effect_witness :
    (World.applyOp
        ⟨{ buyer := ⟨1⟩, seller := ⟨2⟩, mint := ⟨3⟩, amount := 100,
           state := .Completed, created_at := 1000, accepted_at := 1010,
           completed_at := 2000, cancelled_at := 0, timeout_at := 4600,
           description := "widget", bump := 255 }, 0, 400, 100⟩
        (Op.cancel ⟨1⟩ 3000)).2 =
      some (ProgError.escrow EscrowError.InvalidState) ∧
    (World.applyOp
        ⟨{ buyer := ⟨1⟩, seller := ⟨2⟩, mint := ⟨3⟩, amount := 100,
           state := .Completed, created_at := 1000, accepted_at := 1010,
           completed_at := 2000, cancelled_at := 0, timeout_at := 4600,
           description := "widget", bump := 255 }, 0, 400, 100⟩
        (Op.cancel ⟨1⟩ 3000)).1 =
      ⟨{ buyer := ⟨1⟩, seller := ⟨2⟩, mint := ⟨3⟩, amount := 100,
         state := .Completed, created_at := 1000, accepted_at := 1010,
         completed_at := 2000, cancelled_at := 0, timeout_at := 4600,
         description := "widget", bump := 255 }, 0, 400, 100⟩ ∧
    create_escrow ⟨1⟩ ⟨2⟩ 100 3600 "widget" 255 1000 50 =
      Except.error ProgError.insufficientFunds ∧
    runCreate ⟨1⟩ ⟨2⟩ 100 3600 "widget" 255 1000 50 = (none, 50) :=
  ⟨rfl,
   errors_have_no_partial_effect.1
     ⟨{ buyer := ⟨1⟩, seller := ⟨2⟩, mint := ⟨3⟩, amount := 100,
        state := .Completed, created_at := 1000, accepted_at := 1010,
        completed_at := 2000, cancelled_at := 0, timeout_at := 4600,
        description := "widget", bump := 255 }, 0, 400, 100⟩
     (Op.cancel ⟨1⟩ 3000) (ProgError.escrow EscrowError.InvalidState) rfl,
   rfl,
   errors_have_no_partial_effect.2 ⟨1⟩ ⟨2⟩ 100 3600 "widget" 255 1000 50
     ProgError.insufficientFunds rfl⟩

/-- C9: the description field never influences any decision.  Running any
of the five instructions on inputs that differ only in the description
yields the same outcome: identical error (if any), and on success
identical record fields and balances apart from the description itself,
which is carried through unchanged. -/
theorem description_noninterference (e : Escrow) (d d2 : String)
    (c : Pubkey) (v s b : Nat) (now : Int) (bk mk : Pubkey) (amount : Nat)
    (td : Int) (bump : Nat) (bal : Nat) :
    accept_escrow c (setDesc e d) now =
      (accept_escrow c e now).map (fun e2 => setDesc e2 d) ∧
    confirm_delivery c (setDesc e d) v s now =
      (confirm_delivery c e v s now).map (fun r => (setDesc r.1 d, r.2)) ∧
    cancel_escrow c (setDesc e d) v b now =
      (cancel_escrow c e v b now).map (fun r => (setDesc r.1 d, r.2)) ∧
    resolve_timeout (setDesc e d) v s now =
      (resolve_timeout e v s now).map (fun r => (setDesc r.1 d, r.2)) ∧
    create_escrow bk mk amount td d bump now bal =
      (create_escrow bk mk amount td d2 bump now bal).map
        (fun r => (setDesc r.1 d, r.2)) := by
  refine ⟨?_, ?_, ?_, ?_, ?_⟩
  · by_cases h1 : e.state = EscrowState.Created <;>
      by_cases h2 : e.seller = Pubkey.default <;>
      simp [accept_escrow, setDesc, h1, h2, Except.map]
  · by_cases h1 : e.state = EscrowState.Accepted <;>
      by_cases h2 : e.buyer = c <;>
      by_cases h3 : v < e.amount <;>
      simp [confirm_delivery, token_transfer, setDesc, h1, h2, h3, Except.map]
  · by_cases h1 : e.state = EscrowState.Created <;>
      by_cases h2 : e.buyer = c <;>
      by_cases h3 : v < e.amount <;>
      simp [cancel_escrow, token_transfer, setDesc, h1, h2, h3, Except.map]
  · by_cases h1 : e.state = EscrowState.Accepted <;>
      by_cases h2 : now ≥ e.timeout_at <;>
      by_cases h3 : v < e.amount <;>
      simp [resolve_timeout, token_transfer, setDesc, h1, h2, h3, Except.map]
  · by_cases hb : bal < amount <;>
      simp [create_escrow, token_transfer, setDesc, hb, Except.map]

/-- Inversion of a successful accept_escrow: the escrow was in state
Created with the seller unset, and the result records the caller as
seller in state Accepted. -/
theorem accept_ok_inv {c : Pubkey} {e : Escrow} {now : Int} {e2 : Escrow}
    (h : accept_escrow c e now = Except.ok e2) :
    e.state = EscrowState.Created ∧ e.seller = Pubkey.default ∧
    e2 = { e with seller := c, state := .Accepted, accepted_at := now } := by
  by_cases h1 : e.state = EscrowState.Created
  · by_cases h2 : e.seller = Pubkey.default
    · simp only [accept_escrow, h1, h2, ne_eq, not_true_eq_false, if_false,
        Except.ok.injEq] at h
      exact ⟨h1, h2, h.symm⟩
    · simp [accept_escrow, h1, h2] at h
  · simp [accept_escrow, h1] at h

/-- Inversion of a successful confirm_delivery: the escrow was Accepted,
the caller was the buyer, the vault covered the amount, and the result is
the Completed record with the vault debited into the seller account. -/
theorem confirm_ok_inv {c : Pubkey} {e : Escrow} {v s : Nat} {now : Int}
    {r : Escrow × Nat × Nat}
    (h : confirm_delivery c e v s now = Except.ok r) :
    e.state = EscrowState.Accepted ∧ e.buyer = c ∧ e.amount ≤ v ∧
    r = ({ e with state := .Completed, completed_at := now },
         v - e.amount, s + e.amount) := by
  by_cases h1 : e.state = EscrowState.Accepted
  · by_cases h2 : e.buyer = c
    · by_cases h3 : v < e.amount
      · simp [confirm_delivery, token_transfer, h1, h2, h3] at h
      · simp only [confirm_delivery, token_transfer, h1, h2, h3, ne_eq,
          not_true_eq_false, if_false, not_false_eq_true, if_true, if_neg h3,
          Except.ok.injEq] at h
        exact ⟨h1, h2, not_lt.mp h3, by rw [h2]; exact h.symm⟩
    · simp [confirm_delivery, h1, h2] at h
  · simp [confirm_delivery, h1] at h

/-- Inversion of a successful cancel_escrow: the escrow was Created, the
caller was the buyer, the vault covered the amount, and the result is the
Cancelled record with the vault refunded to the buyer account. -/
theorem cancel_ok_inv {c : Pubkey} {e : Escrow} {v b : Nat} {now : Int}
    {r : Escrow × Nat × Nat}
    (h : cancel_escrow c e v b now = Except.ok r) :
    e.state = EscrowState.Created ∧ e.buyer = c ∧ e.amount ≤ v ∧
    r = ({ e with state := .Cancelled, cancelled_at := now },
         v - e.amount, b + e.amount) := by
  by_cases h1 : e.state = EscrowState.Created
  · by_cases h2 : e.buyer = c
    · by_cases h3 : v < e.amount
      · simp [cancel_escrow, token_transfer, h1, h2, h3] at h
      · simp only [cancel_escrow, token_transfer, h1, h2, h3, ne_eq,
          not_true_eq_false, if_false, not_false_eq_true, if_true, if_neg h3,
          Except.ok.injEq] at h
        exact ⟨h1, h2, not_lt.mp h3, by rw [h2]; exact h.symm⟩
    · simp [cancel_escrow, h1, h2] at h
  · simp [cancel_escrow, h1] at h

/-- Inversion of a successful resolve_timeout: the escrow was Accepted,
the deadline had passed, the vault covered the amount, and the result is
the TimedOut record with the vault paid out to the seller account. -/
theorem timeout_ok_inv {e : Escrow} {v s : Nat} {now : Int}
    {r : Escrow × Nat × Nat}
    (h : resolve_timeout e v s now = Except.ok r) :
    e.state = EscrowState.Accepted ∧ e.timeout_at ≤ now ∧ e.amount ≤ v ∧
    r = ({ e with state := .TimedOut, completed_at := now },
         v - e.amount, s + e.amount) := by
  by_cases h1 : e.state = EscrowState.Accepted
  · by_cases h2 : now ≥ e.timeout_at
    · by_cases h3 : v < e.amount
      · simp [resolve_timeout, token_transfer, h1, h2, h3] at h
      · simp only [resolve_timeout, token_transfer, h1, h2, h3, ne_eq,
          not_true_eq_false, if_false, not_true_eq_false, not_false_eq_true,
          if_true, if_neg h3, Except.ok.injEq] at h
        exact ⟨h1, h2, not_lt.mp h3, h.symm⟩
    · simp [resolve_timeout, h1, h2] at h
  · simp [resolve_timeout, h1] at h

/-- True when the op is not an accept whose caller key is the sentinel
(the all-zero key, for which no signature exists in practice). -/
def Op.acceptCallerOk : Op → Bool
  | .accept c _ => decide (c ≠ Pubkey.default)
  | _ => true

/-- The seller field of a record equals the sentinel exactly in the states
Created and Cancelled. -/
def sellerSentinelInv (e : Escrow) : Prop :=
  e.seller = Pubkey.default ↔
    (e.state = EscrowState.Created ∨ e.state = EscrowState.Cancelled)

/-- One step by any instruction whose accept caller is not the sentinel
preserves sellerSentinelInv. -/
theorem step_preserves_sellerSentinelInv (w : World) (op : Op)
    (hop : op.acceptCallerOk = true) (h : sellerSentinelInv w.escrow) :
    sellerSentinelInv (w.step op).escrow := by
  cases op with
  | accept c now =>
    have hc : c ≠ Pubkey.default := by
      simpa [Op.acceptCallerOk] using hop
    simp only [World.step, World.applyOp]
    cases hf : accept_escrow c w.escrow now with
    | error er => simpa using h
    | ok e2 =>
      obtain ⟨h1, h2, h3⟩ := accept_ok_inv hf
      subst h3
      simp [sellerSentinelInv, hc]
  | confirm c now =>
    simp only [World.step, World.applyOp]
    cases hf : confirm_delivery c w.escrow w.vault w.sellerAcct now with
    | error er => simpa using h
    | ok r =>
      obtain ⟨h1, h2, h3, h4⟩ := confirm_ok_inv hf
      subst h4
      have hs : w.escrow.seller ≠ Pubkey.default := fun hsd => by
        have h5 := h.mp hsd
        rw [h1] at h5
        simp at h5
      simp [sellerSentinelInv, hs]
  | cancel c now =>
    simp only [World.step, World.applyOp]
    cases hf : cancel_escrow c w.escrow w.vault w.buyerAcct now with
    | error er => simpa using h
    | ok r =>
      obtain ⟨h1, h2, h3, h4⟩ := cancel_ok_inv hf
      subst h4
      have hs : w.escrow.seller = Pubkey.default := h.mpr (Or.inl h1)
      simp [sellerSentinelInv, hs]
  | timeout now =>
    simp only [World.step, World.applyOp]
    cases hf : resolve_timeout w.escrow w.vault w.sellerAcct now with
    | error er => simpa using h
    | ok r =>
      obtain ⟨h1, h2, h3, h4⟩ := timeout_ok_inv hf
      subst h4
      have hs : w.escrow.seller ≠ Pubkey.default := fun hsd => by
        have h5 := h.mp hsd
        rw [h1] at h5
        simp at h5
      simp [sellerSentinelInv, hs]

/-- Any run of instructions whose accept callers are not the sentinel
preserves sellerSentinelInv. -/
theorem run_preserves_sellerSentinelInv (ops : List Op) :
    ∀ w : World, sellerSentinelInv w.escrow →
      ops.all Op.acceptCallerOk = true →
      sellerSentinelInv (w.run ops).escrow := by
  induction ops with
  | nil =>
    intro w hw _
    simpa [World.run] using hw
  | cons op rest ih =>
    intro w hw hall
    simp only [List.all_cons, Bool.and_eq_true] at hall
    have hstep := step_preserves_sellerSentinelInv w op hall.1 hw
    simpa [World.run] using ih (w.step op) hstep hall.2

/-- C8 counterexample: from a successful create, a single cancel by the
buyer reaches a record whose seller is still the sentinel while its state
is Cancelled, not Created, so the claimed equivalence between seller
sentinel and state Created fails on a reachable record. -/
theorem seller_sentinel_counterexample :
    initWorld ⟨1⟩ ⟨2⟩ 100 3600 "widget" 255 1000 100 0 =
      some ⟨{ buyer := ⟨1⟩, seller := Pubkey.default, mint := ⟨2⟩,
              amount := 100, state := .Created, created_at := 1000,
              accepted_at := 0, completed_at := 0, cancelled_at := 0,
              timeout_at := 4600, description := "widget", bump := 255 },
            100, 0, 0⟩ ∧
    (World.run
        ⟨{ buyer := ⟨1⟩, seller := Pubkey.default, mint := ⟨2⟩,
           amount := 100, state := .Created, created_at := 1000,
           accepted_at := 0, completed_at := 0, cancelled_at := 0,
           timeout_at := 4600, description := "widget", bump := 255 },
         100, 0, 0⟩ [Op.cancel ⟨1⟩ 2000]).escrow.seller = Pubkey.default ∧
    (World.run
        ⟨{ buyer := ⟨1⟩, seller := Pubkey.default, mint := ⟨2⟩,
           amount := 100, state := .Created, created_at := 1000,
           accepted_at := 0, completed_at := 0, cancelled_at := 0,
           timeout_at := 4600, description := "widget", bump := 255 },
         100, 0, 0⟩ [Op.cancel ⟨1⟩ 2000]).escrow.state =
      EscrowState.Cancelled ∧
    ¬ ((World.run
        ⟨{ buyer := ⟨1⟩, seller := Pubkey.default, mint := ⟨2⟩,
           amount := 100, state := .Created, created_at := 1000,
           accepted_at := 0, completed_at := 0, cancelled_at := 0,
           timeout_at := 4600, description := "widget", bump := 255 },
         100, 0, 0⟩ [Op.cancel ⟨1⟩ 2000]).escrow.seller = Pubkey.default ↔
      (World.run
        ⟨{ buyer := ⟨1⟩, seller := Pubkey.default, mint := ⟨2⟩,
           amount := 100, state := .Created, created_at := 1000,
           accepted_at := 0, completed_at := 0, cancelled_at := 0,
           timeout_at := 4600, description := "widget", bump := 255 },
         100, 0, 0⟩ [Op.cancel ⟨1⟩ 2000]).escrow.state =
        EscrowState.Created) := by
  refine ⟨rfl, rfl, rfl, ?_⟩
  decide

/-- C8 (amended): for every record reachable from a successful create by
a sequence of operations in which no accept caller's key equals the
sentinel, the seller field equals the sentinel iff the state is Created or
Cancelled: the seller stays at the sentinel through a cancellation and is
a real key exactly in Accepted, Completed and TimedOut. -/
theorem seller_sentinel_iff_created_or_cancelled (bk mk : Pubkey)
    (amount : Nat) (td : Int) (d : String) (bump : Nat) (now : Int)
    (bal sbal : Nat) (ops : List Op) (w0 : World)
    (hinit : initWorld bk mk amount td d bump now bal sbal = some w0)
    (hops : ops.all Op.acceptCallerOk = true) :
    (w0.run ops).escrow.seller = Pubkey.default ↔
      ((w0.run ops).escrow.state = EscrowState.Created ∨
       (w0.run ops).escrow.state = EscrowState.Cancelled) := by
  have h0 : sellerSentinelInv w0.escrow := by
    by_cases hb : bal < amount
    · simp [initWorld, create_escrow, token_transfer, hb] at hinit
    · simp only [initWorld, create_escrow, token_transfer, if_neg hb,
        Option.some.injEq] at hinit
      subst hinit
      simp [sellerSentinelInv]
  exact run_preserves_sellerSentinelInv ops w0 h0 hops

/-- C8 witness: the amended theorem applied at a concrete create followed
by an accept (by a non-sentinel seller) and a delivery confirmation; the
final record has a real seller and state Completed, so both sides of the
equivalence are false. -/
theorem seller_sentinel_iff_witness :
    initWorld ⟨1⟩ ⟨2⟩ 100 3600 "widget" 255 1000 100 0 =
      some ⟨{ buyer := ⟨1⟩, seller := Pubkey.default, mint := ⟨2⟩,
              amount := 100, state := .Created, created_at := 1000,
              accepted_at := 0, completed_at := 0, cancelled_at := 0,
              timeout_at := 4600, description := "widget", bump := 255 },
            100, 0, 0⟩ ∧
    [Op.accept ⟨7⟩ 1010, Op.confirm ⟨1⟩ 2000].all Op.acceptCallerOk =
      true ∧
    ((World.run
        ⟨{ buyer := ⟨1⟩, seller := Pubkey.default, mint := ⟨2⟩,
           amount := 100, state := .Created, created_at := 1000,
           accepted_at := 0, completed_at := 0, cancelled_at := 0,
           timeout_at := 4600, description := "widget", bump := 255 },
         100, 0, 0⟩
        [Op.accept ⟨7⟩ 1010, Op.confirm ⟨1⟩ 2000]).escrow.seller =
        Pubkey.default ↔
      ((World.run
          ⟨{ buyer := ⟨1⟩, seller := Pubkey.default, mint := ⟨2⟩,
             amount := 100, state := .Created, created_at := 1000,
             accepted_at := 0, completed_at := 0, cancelled_at := 0,
             timeout_at := 4600, description := "widget", bump := 255 },
           100, 0, 0⟩
          [Op.accept ⟨7⟩ 1010, Op.confirm ⟨1⟩ 2000]).escrow.state =
          EscrowState.Created ∨
       (World.run
          ⟨{ buyer := ⟨1⟩, seller := Pubkey.default, mint := ⟨2⟩,
             amount := 100, state := .Created, created_at := 1000,
             accepted_at := 0, completed_at := 0, cancelled_at := 0,
             timeout_at := 4600, description := "widget", bump := 255 },
           100, 0, 0⟩
          [Op.accept ⟨7⟩ 1010, Op.confirm ⟨1⟩ 2000]).escrow.state =
          EscrowState.Cancelled)) :=
  ⟨rfl, by decide,
   seller_sentinel_iff_created_or_cancelled ⟨1⟩ ⟨2⟩ 100 3600 "widget" 255
     1000 100 0 [Op.accept ⟨7⟩ 1010, Op.confirm ⟨1⟩ 2000]
     ⟨{ buyer := ⟨1⟩, seller := Pubkey.default, mint := ⟨2⟩,
        amount := 100, state := .Created, created_at := 1000,
        accepted_at := 0, completed_at := 0, cancelled_at := 0,
        timeout_at := 4600, description := "widget", bump := 255 },
      100, 0, 0⟩ rfl (by decide)⟩

end EscrowEngine
